import Mathlib

/-!
Verification of the reverse-FFMI calculator.

The source is a client-side calculator page (`part_000`, the Home page)
together with a custom slider widget (`SmoothSlider.tsx`).  JavaScript
numbers are modelled as rationals; `Math.round` rounds half toward
positive infinity, which on rationals is `fun x => Int.floor (x + 1/2)`,
and `Math.floor`, `Math.min`, `Math.max` are the usual floor, min, max.
-/

/-- Result record of `calculateTargetWeight` in `part_000`. -/
structure PhysiqueResult where
  weightKg : ℚ
  leanMassKg : ℚ
  fatMassKg : ℚ
deriving DecidableEq, Repr

/-- Embedding of `calculateTargetWeight` (part_000, lines 16-34). -/
def calculateTargetWeight (heightCm bodyFatPercent normalizedFFMI : ℚ) :
    PhysiqueResult :=
  let heightMeters := heightCm / 100
  let ffmi := normalizedFFMI - 6.1 * (1.8 - heightMeters)
  let leanMassKg := ffmi * heightMeters ^ 2
  let weightKg := leanMassKg / (1 - bodyFatPercent / 100)
  let fatMassKg := weightKg - leanMassKg
  { weightKg := weightKg, leanMassKg := leanMassKg, fatMassKg := fatMassKg }

/-- Category record returned by `getFFMICategory` in `part_000`. -/
structure FFMICategory where
  label : String
  color : String
  description : String
deriving DecidableEq, Repr

/-- Embedding of `getFFMICategory` (part_000, lines 52-68). -/
def getFFMICategory (normalizedFFMI : ℚ) : FFMICategory :=
  if normalizedFFMI < 18 then
    { label := "Below Average", color := "text-gray-400",
      description := "Below average muscle mass" }
  else if normalizedFFMI < 20 then
    { label := "Average", color := "text-blue-400",
      description := "Average muscle development" }
  else if normalizedFFMI < 22 then
    { label := "Above Average", color := "text-green-400",
      description := "Noticeable muscle development" }
  else if normalizedFFMI < 23 then
    { label := "Excellent", color := "text-yellow-400",
      description := "Excellent natural development" }
  else if normalizedFFMI < 25 then
    { label := "Superior", color := "text-orange-400",
      description := "Near natural limit" }
  else if normalizedFFMI < 26 then
    { label := "Natural Limit", color := "text-red-400",
      description := "At or near genetic ceiling" }
  else
    { label := "Elite", color := "text-purple-400",
      description := "Likely enhanced or genetic outlier" }

/-- Embedding of the conversion helper `inchesToCm` (part_000, line 71). -/
def inchesToCm (inches : ℚ) : ℚ := inches * 2.54

/-- Embedding of the conversion helper `cmToInches` (part_000, line 72). -/
def cmToInches (cm : ℚ) : ℚ := cm / 2.54

/-- Embedding of the conversion helper `kgToLbs` (part_000, line 73). -/
def kgToLbs (kg : ℚ) : ℚ := kg * 2.20462

/-- JavaScript `Math.round`: round to nearest, halves toward positive
infinity, i.e. `Math.round x = Math.floor (x + 0.5)`. -/
def jsRound (x : ℚ) : ℤ := ⌊x + 1 / 2⌋

/-- Embedding of the top-level `snapToStep` helper of `part_000`
(lines 76-79); this version does not clamp. -/
def snapToStep (value min step : ℚ) : ℚ :=
  let steps := jsRound ((value - min) / step)
  min + (steps : ℚ) * step

/-- The state of the Home page that is relevant to the height logic:
the unit-system flag `isImperial` and the canonical stored height in
centimeters `heightCm`. -/
structure HomeState where
  isImperial : Bool
  heightCm : ℚ
deriving DecidableEq, Repr

/-- Embedding of `handleUnitToggle` (part_000, lines 88-104).
`Math.max (Math.min ...)` is `max _ (min _ _)`. -/
def handleUnitToggle (s : HomeState) (toImperial : Bool) : HomeState :=
  if toImperial = s.isImperial then s
  else if toImperial then
    let inches := cmToInches s.heightCm
    let snappedInches := snapToStep inches 60 0.5
    let clampedInches := max 60 (min 84 snappedInches)
    { isImperial := toImperial, heightCm := inchesToCm clampedInches }
  else
    let snappedCm := snapToStep s.heightCm 152 1
    let clampedCm := max 152 (min 213 snappedCm)
    { isImperial := toImperial, heightCm := clampedCm }

/-- The `min`/`max`/`step` part of the `heightConfig` object
(part_000, lines 120-138): imperial is `[60, 84]` inches with step `0.5`,
metric is `[152, 213]` cm with step `1`. -/
structure SliderConfig where
  min : ℚ
  max : ℚ
  step : ℚ
deriving DecidableEq, Repr

/-- The height slider configuration chosen by `heightConfig`
(part_000, lines 120-138) for each unit system. -/
def heightSliderConfig (isImperial : Bool) : SliderConfig :=
  if isImperial then { min := 60, max := 84, step := 0.5 }
  else { min := 152, max := 213, step := 1 }

/-- The effect on the page state of the height slider's `onChange`
(part_000, lines 126 and 135): in imperial mode the slider reports
inches and the page stores `inchesToCm inches`; in metric mode the
reported centimeters are stored directly. -/
def applyHeightOnChange (s : HomeState) (v : ℚ) : HomeState :=
  if s.isImperial then { s with heightCm := inchesToCm v }
  else { s with heightCm := v }

namespace SmoothSlider

/-- Embedding of `clamp` in `SmoothSlider.tsx` (lines 31-34):
`Math.min (max, Math.max (min, val))`. -/
def clamp (c : SliderConfig) (val : ℚ) : ℚ :=
  min c.max (max c.min val)

/-- Embedding of the widget's `snapToStep` (SmoothSlider.tsx,
lines 36-42); unlike the page-level helper, this one clamps its
result. -/
def snapToStep (c : SliderConfig) (val : ℚ) : ℚ :=
  let steps := jsRound ((val - c.min) / c.step)
  clamp c (c.min + (steps : ℚ) * c.step)

/-- Embedding of `getValueFromPosition` (SmoothSlider.tsx, lines 44-53):
a pointer at `clientX` over a track starting at `rectLeft` with width
`rectWidth` maps linearly into `[min, max]` and is then snapped. -/
def getValueFromPosition (c : SliderConfig) (clientX rectLeft rectWidth : ℚ) : ℚ :=
  let percentage := (clientX - rectLeft) / rectWidth
  let rawValue := c.min + percentage * (c.max - c.min)
  snapToStep c rawValue

/-- Embedding of `handleWheel` (SmoothSlider.tsx, lines 55-63):
`direction = deltaY > 0 ? -1 : 1`, then snap `value + direction * step`. -/
def handleWheel (c : SliderConfig) (value deltaY : ℚ) : ℚ :=
  let direction : ℚ := if deltaY > 0 then -1 else 1
  snapToStep c (value + direction * c.step)

/-- Embedding of `handleKeyDown` (SmoothSlider.tsx, lines 89-125):
`some v` means the handler calls `onChange v`; `none` means the key is
not recognised and the handler returns without calling `onChange`. -/
def handleKeyDown (c : SliderConfig) (value : ℚ) (key : String) : Option ℚ :=
  if key = "ArrowRight" ∨ key = "ArrowUp" then
    some (snapToStep c (value + c.step))
  else if key = "ArrowLeft" ∨ key = "ArrowDown" then
    some (snapToStep c (value - c.step))
  else if key = "Home" then some c.min
  else if key = "End" then some c.max
  else if key = "PageUp" then some (snapToStep c (value + c.step * 10))
  else if key = "PageDown" then some (snapToStep c (value - c.step * 10))
  else none

/-- One user event handled by the slider: a key press, a wheel event
with vertical delta `deltaY`, or a pointer press/drag at horizontal
position `clientX` over a track `[rectLeft, rectLeft + rectWidth]`
(`handleMouseDown` and `handleMouseMove` both delegate to
`getValueFromPosition`). -/
inductive SliderEvent where
  | keyDown (key : String)
  | wheel (deltaY : ℚ)
  | pointer (clientX rectLeft rectWidth : ℚ)
deriving DecidableEq, Repr

/-- The value the slider passes to `onChange` for one event, given the
caller-supplied current `value`; `none` when no `onChange` call happens. -/
def sliderStep (c : SliderConfig) (value : ℚ) : SliderEvent → Option ℚ
  | .keyDown key => handleKeyDown c value key
  | .wheel deltaY => some (handleWheel c value deltaY)
  | .pointer clientX rectLeft rectWidth =>
      some (getValueFromPosition c clientX rectLeft rectWidth)

end SmoothSlider

/-- The calculator formula exactly as the specification words it:
`heightMeters = heightCm / 100`, `ffmi = normalizedFFMI - 6.1 * (1.8 -
heightMeters)`, `leanMassKg = ffmi * heightMeters^2`, `totalWeightKg =
leanMassKg / (1 - bodyFatPercent/100)`, `fatMassKg = totalWeightKg -
leanMassKg`.  Stated separately from `calculateTargetWeight` so the code
can be compared against it. -/
def specPhysiqueFormula (heightCm bodyFatPercent normalizedFFMI : ℚ) :
    PhysiqueResult :=
  { weightKg :=
      (normalizedFFMI - 6.1 * (1.8 - heightCm / 100)) * (heightCm / 100) ^ 2 /
        (1 - bodyFatPercent / 100)
    leanMassKg :=
      (normalizedFFMI - 6.1 * (1.8 - heightCm / 100)) * (heightCm / 100) ^ 2
    fatMassKg :=
      (normalizedFFMI - 6.1 * (1.8 - heightCm / 100)) * (heightCm / 100) ^ 2 /
        (1 - bodyFatPercent / 100) -
      (normalizedFFMI - 6.1 * (1.8 - heightCm / 100)) * (heightCm / 100) ^ 2 }

/-- The unit-toggle pipeline exactly as the specification words it:
convert to the target unit, snap to that unit's step, then clamp to
that unit's range, in that order. -/
def specConvertSnapClamp (convert : ℚ → ℚ) (lo hi step x : ℚ) : ℚ :=
  max lo (min hi (snapToStep (convert x) lo step))

/-- The wheel direction exactly as the claim words it: one step in the
direction opposite the sign of the vertical delta, so a zero delta
gives no movement. -/
def specWheelDirection (deltaY : ℚ) : ℚ :=
  if deltaY > 0 then -1 else if deltaY < 0 then 1 else 0

/-! ## Helper lemmas shared by the claim theorems -/

/-- The widget's `clamp` lands in `[min, max]` whenever `min ≤ max`. -/
theorem sliderClamp_mem (c : SliderConfig) (hle : c.min ≤ c.max) (x : ℚ) :
    c.min ≤ SmoothSlider.clamp c x ∧ SmoothSlider.clamp c x ≤ c.max := by
  unfold SmoothSlider.clamp
  exact ⟨le_min hle (le_max_left _ _), min_le_left _ _⟩

/-- The widget's `snapToStep` lands in `[min, max]` whenever `min ≤ max`. -/
theorem sliderSnap_mem (c : SliderConfig) (hle : c.min ≤ c.max) (x : ℚ) :
    c.min ≤ SmoothSlider.snapToStep c x ∧ SmoothSlider.snapToStep c x ≤ c.max :=
  sliderClamp_mem c hle _

/-- Every value the widget hands to `onChange` lands in `[min, max]`
whenever `min ≤ max`. -/
theorem sliderStep_mem (c : SliderConfig) (hle : c.min ≤ c.max) (value : ℚ)
    (e : SmoothSlider.SliderEvent) (v : ℚ)
    (hv : SmoothSlider.sliderStep c value e = some v) :
    c.min ≤ v ∧ v ≤ c.max := by
  cases e with
  | keyDown key =>
      simp only [SmoothSlider.sliderStep, SmoothSlider.handleKeyDown] at hv
      split_ifs at hv <;>
        simp only [Option.some.injEq, reduceCtorEq] at hv <;> subst hv
      · exact sliderSnap_mem c hle _
      · exact sliderSnap_mem c hle _
      · exact ⟨le_refl _, hle⟩
      · exact ⟨hle, le_refl _⟩
      · exact sliderSnap_mem c hle _
      · exact sliderSnap_mem c hle _
  | wheel deltaY =>
      simp only [SmoothSlider.sliderStep, Option.some.injEq] at hv
      subst hv
      exact sliderSnap_mem c hle _
  | pointer clientX rectLeft rectWidth =>
      simp only [SmoothSlider.sliderStep, Option.some.injEq] at hv
      subst hv
      exact sliderSnap_mem c hle _

/-- `clamp` preserves the step grid when both its argument and `max`
sit on the grid anchored at `min`. -/
theorem sliderClamp_grid (c : SliderConfig) (hle : c.min ≤ c.max)
    (hmax : ∃ m : ℤ, c.max - c.min = m * c.step) (x : ℚ)
    (hx : ∃ n : ℤ, x - c.min = n * c.step) :
    ∃ k : ℤ, SmoothSlider.clamp c x - c.min = k * c.step := by
  obtain ⟨m, hm⟩ := hmax
  obtain ⟨n, hn⟩ := hx
  unfold SmoothSlider.clamp
  rcases le_total x c.min with h | h
  · refine ⟨0, ?_⟩
    rw [max_eq_left h, min_eq_right hle]
    push_cast
    ring
  · rw [max_eq_right h]
    rcases le_total x c.max with h2 | h2
    · rw [min_eq_right h2]
      exact ⟨n, hn⟩
    · rw [min_eq_left h2]
      exact ⟨m, hm⟩

/-- The widget's `snapToStep` lands on the step grid anchored at `min`
whenever `max` does. -/
theorem sliderSnap_grid (c : SliderConfig) (hle : c.min ≤ c.max)
    (hmax : ∃ m : ℤ, c.max - c.min = m * c.step) (x : ℚ) :
    ∃ k : ℤ, SmoothSlider.snapToStep c x - c.min = k * c.step := by
  apply sliderClamp_grid c hle hmax
  exact ⟨jsRound ((x - c.min) / c.step), by unfold jsRound; ring⟩

/-! ## Claim theorems -/

/-- C1 (counterexample): at heightCm = 178, bodyFatPercent = 12,
normalizedFFMI = 20 the code's lean mass is exactly
19.878 * 1.78 ^ 2 = 62.9814552 kg, which is not within 0.01 of the
claimed 62.97. -/
theorem calculateTargetWeight_scenario_lean_not_6297 :
    (calculateTargetWeight 178 12 20).leanMassKg = 78726819 / 1250000 ∧
    ¬ |(calculateTargetWeight 178 12 20).leanMassKg - 62.97| ≤ 0.01 := by
  constructor
  · norm_num [calculateTargetWeight]
  · norm_num [calculateTargetWeight, abs_le]

/-- C1 (amended): the calculator computes its result by exactly the
spec's fixed formula, and at heightCm = 178, bodyFatPercent = 12,
normalizedFFMI = 20 it returns leanMassKg = 62.98 (±0.01, exactly
62.9814552), totalWeightKg = 71.56 (±0.05) and fatMassKg = 8.59
(±0.01). -/
theorem calculateTargetWeight_formula_and_scenario :
    (∀ heightCm bodyFatPercent normalizedFFMI : ℚ,
      calculateTargetWeight heightCm bodyFatPercent normalizedFFMI =
        specPhysiqueFormula heightCm bodyFatPercent normalizedFFMI) ∧
    |(calculateTargetWeight 178 12 20).leanMassKg - 62.98| ≤ 0.01 ∧
    |(calculateTargetWeight 178 12 20).weightKg - 71.56| ≤ 0.05 ∧
    |(calculateTargetWeight 178 12 20).fatMassKg - 8.59| ≤ 0.01 := by
  refine ⟨fun heightCm bodyFatPercent normalizedFFMI => rfl, ?_, ?_, ?_⟩ <;>
    norm_num [calculateTargetWeight, abs_le]

/-- C4: for all inputs in the supported domain (heightCm in [152, 213],
bodyFatPercent in [5, 35], normalizedFFMI in [15, 30]) the calculator
satisfies totalWeightKg = leanMassKg + fatMassKg exactly, and both
leanMassKg and fatMassKg are nonnegative. -/
theorem calculateTargetWeight_sum_and_nonneg
    (heightCm bodyFatPercent normalizedFFMI : ℚ)
    (h1 : 152 ≤ heightCm) (h2 : heightCm ≤ 213)
    (h3 : 5 ≤ bodyFatPercent) (h4 : bodyFatPercent ≤ 35)
    (h5 : 15 ≤ normalizedFFMI) (h6 : normalizedFFMI ≤ 30) :
    (calculateTargetWeight heightCm bodyFatPercent normalizedFFMI).weightKg =
      (calculateTargetWeight heightCm bodyFatPercent normalizedFFMI).leanMassKg +
        (calculateTargetWeight heightCm bodyFatPercent normalizedFFMI).fatMassKg ∧
    0 ≤ (calculateTargetWeight heightCm bodyFatPercent normalizedFFMI).leanMassKg ∧
    0 ≤ (calculateTargetWeight heightCm bodyFatPercent normalizedFFMI).fatMassKg := by
  have hlean : 0 ≤ (normalizedFFMI - 6.1 * (1.8 - heightCm / 100)) *
      (heightCm / 100) ^ 2 := by
    apply mul_nonneg
    · nlinarith
    · positivity
  have hd : (0:ℚ) < 1 - bodyFatPercent / 100 := by linarith
  have hge : (normalizedFFMI - 6.1 * (1.8 - heightCm / 100)) * (heightCm / 100) ^ 2 ≤
      (normalizedFFMI - 6.1 * (1.8 - heightCm / 100)) * (heightCm / 100) ^ 2 /
        (1 - bodyFatPercent / 100) := by
    rw [le_div_iff₀ hd]
    nlinarith
  simp only [calculateTargetWeight]
  exact ⟨by ring, hlean, by linarith⟩

/-- Witness for C4 at the concrete in-range input (178, 12, 20). -/
theorem calculateTargetWeight_sum_and_nonneg_witness :
    (calculateTargetWeight 178 12 20).weightKg =
      (calculateTargetWeight 178 12 20).leanMassKg +
        (calculateTargetWeight 178 12 20).fatMassKg ∧
    0 ≤ (calculateTargetWeight 178 12 20).leanMassKg ∧
    0 ≤ (calculateTargetWeight 178 12 20).fatMassKg :=
  calculateTargetWeight_sum_and_nonneg 178 12 20 (by norm_num) (by norm_num)
    (by norm_num) (by norm_num) (by norm_num) (by norm_num)

/-- C6: getFFMICategory maps every rational input to exactly one of the
seven bands with left-closed/right-open boundaries: below 18 is "Below
Average", [18, 20) is "Average", [20, 22) is "Above Average", [22, 23)
is "Excellent", [23, 25) is "Superior", [25, 26) is "Natural Limit",
and 26 and above is "Elite"; in particular the labels at 18, 26 and
25.999 are "Average", "Elite" and "Natural Limit". -/
theorem getFFMICategory_bands :
    (∀ x : ℚ,
      (x < 18 → (getFFMICategory x).label = "Below Average") ∧
      (18 ≤ x → x < 20 → (getFFMICategory x).label = "Average") ∧
      (20 ≤ x → x < 22 → (getFFMICategory x).label = "Above Average") ∧
      (22 ≤ x → x < 23 → (getFFMICategory x).label = "Excellent") ∧
      (23 ≤ x → x < 25 → (getFFMICategory x).label = "Superior") ∧
      (25 ≤ x → x < 26 → (getFFMICategory x).label = "Natural Limit") ∧
      (26 ≤ x → (getFFMICategory x).label = "Elite")) ∧
    (getFFMICategory 18).label = "Average" ∧
    (getFFMICategory 26).label = "Elite" ∧
    (getFFMICategory 25.999).label = "Natural Limit" := by
  constructor
  · intro x
    refine ⟨fun h1 => ?_, fun h1 h2 => ?_, fun h1 h2 => ?_, fun h1 h2 => ?_,
      fun h1 h2 => ?_, fun h1 h2 => ?_, fun h1 => ?_⟩ <;>
    · simp only [getFFMICategory]
      split_ifs <;> first | rfl | (exfalso; linarith)
  · refine ⟨?_, ?_, ?_⟩ <;> norm_num [getFFMICategory]

/-- Witness for C6: concrete inputs land in the stated bands. -/
theorem getFFMICategory_bands_witness :
    (getFFMICategory 17.9).label = "Below Average" ∧
    (getFFMICategory 19).label = "Average" ∧
    (getFFMICategory 24).label = "Superior" :=
  ⟨(getFFMICategory_bands.1 17.9).1 (by norm_num),
   (getFFMICategory_bands.1 19).2.1 (by norm_num) (by norm_num),
   (getFFMICategory_bands.1 24).2.2.2.2.1 (by norm_num) (by norm_num)⟩

/-- C10: invoking the unit toggle with the unit system that is already
active leaves the whole page state (stored height and unit flag)
unchanged. -/
theorem handleUnitToggle_same_unit_noop (s : HomeState) :
    handleUnitToggle s s.isImperial = s := by
  simp [handleUnitToggle]

/-- C5: toggling the unit system transforms the stored height by
convert-to-target-unit, then snap to the target unit's step, then clamp
to the target unit's range, in exactly that order — imperial
[60, 84] inches step 0.5, metric [152, 213] cm step 1 — and toggling
from metric with heightCm = 178 to imperial yields 70.0 inches. -/
theorem handleUnitToggle_convert_snap_clamp :
    (∀ h : ℚ, handleUnitToggle ⟨false, h⟩ true =
      ⟨true, inchesToCm (specConvertSnapClamp cmToInches 60 84 0.5 h)⟩) ∧
    (∀ h : ℚ, handleUnitToggle ⟨true, h⟩ false =
      ⟨false, specConvertSnapClamp id 152 213 1 h⟩) ∧
    cmToInches (handleUnitToggle ⟨false, 178⟩ true).heightCm = 70 := by
  refine ⟨fun h => ?_, fun h => ?_, ?_⟩
  · simp [handleUnitToggle, specConvertSnapClamp]
  · simp [handleUnitToggle, specConvertSnapClamp]
  · norm_num [handleUnitToggle, specConvertSnapClamp, cmToInches, inchesToCm,
      snapToStep, jsRound]

/-- C7: for every value `v`, anchor `lo` and step > 0, the page-level
snapToStep is idempotent, and its result differs from the anchor by an
exact integer multiple of the step. -/
theorem snapToStep_idem_and_grid (v lo step : ℚ) (hstep : 0 < step) :
    snapToStep (snapToStep v lo step) lo step = snapToStep v lo step ∧
    ∃ n : ℤ, snapToStep v lo step - lo = n * step := by
  have hstep0 : step ≠ 0 := ne_of_gt hstep
  have hfix : ∀ n : ℤ, jsRound ((lo + (n:ℚ) * step - lo) / step) = n := by
    intro n
    have harg : (lo + (n:ℚ) * step - lo) / step = (n:ℚ) := by
      field_simp
    unfold jsRound
    rw [harg, Int.floor_int_add]
    norm_num
  constructor
  · show snapToStep (lo + (jsRound ((v - lo) / step) : ℚ) * step) lo step = _
    unfold snapToStep
    rw [hfix]
  · exact ⟨jsRound ((v - lo) / step), by unfold snapToStep; ring⟩

/-- Witness for C7 at v = 7.3, lo = 0, step = 1 (the snapped value is
7, on the grid). -/
theorem snapToStep_idem_and_grid_witness :
    snapToStep (snapToStep 7.3 0 1) 0 1 = snapToStep 7.3 0 1 ∧
    ∃ n : ℤ, snapToStep 7.3 0 1 - 0 = n * 1 :=
  snapToStep_idem_and_grid 7.3 0 1 (by norm_num)

/-- C8: inchesToCm and cmToInches are exact inverses on rationals for
every x > 0, with inchesToCm x = x * 2.54 and cmToInches x = x / 2.54. -/
theorem inches_cm_exact_inverses (x : ℚ) (hx : 0 < x) :
    inchesToCm (cmToInches x) = x ∧ cmToInches (inchesToCm x) = x ∧
    inchesToCm x = x * 2.54 ∧ cmToInches x = x / 2.54 := by
  refine ⟨?_, ?_, rfl, rfl⟩ <;>
  · unfold inchesToCm cmToInches
    norm_num

/-- Witness for C8 at x = 178. -/
theorem inches_cm_exact_inverses_witness :
    inchesToCm (cmToInches 178) = 178 ∧ cmToInches (inchesToCm 178) = 178 ∧
    inchesToCm 178 = 178 * 2.54 ∧ cmToInches 178 = 178 / 2.54 :=
  inches_cm_exact_inverses 178 (by norm_num)

/-- C3 (counterexample): with the valid configuration min = 0, max = 10,
step = 3 (min < max, step > 0), the End key makes the slider pass 10 to
`onChange`, and 10 - 0 is not an integer multiple of 3, so the emitted
value is off the step grid. -/
theorem sliderStep_end_key_off_grid :
    SmoothSlider.sliderStep ⟨0, 10, 3⟩ 0 (.keyDown "End") = some 10 ∧
    ¬ ∃ k : ℤ, (10:ℚ) - 0 = k * 3 := by
  constructor
  · decide
  · rintro ⟨k, hk⟩
    have hq : (10:ℚ) = (k:ℚ) * 3 := by linarith
    have hz : (10:ℤ) = k * 3 := by exact_mod_cast hq
    omega

/-- C3 (amended): for every configuration with min < max, step > 0 and
max - min an integer multiple of step, and for every keyboard, wheel or
pointer event, every value v the slider passes to `onChange` satisfies
min ≤ v ≤ max and v - min is an exact integer multiple of step. -/
theorem sliderStep_range_and_grid (c : SliderConfig) (hlt : c.min < c.max)
    (hstep : 0 < c.step) (hgrid : ∃ m : ℤ, c.max - c.min = m * c.step)
    (value : ℚ) (e : SmoothSlider.SliderEvent) (v : ℚ)
    (hv : SmoothSlider.sliderStep c value e = some v) :
    (c.min ≤ v ∧ v ≤ c.max) ∧ ∃ k : ℤ, v - c.min = k * c.step := by
  have hle : c.min ≤ c.max := le_of_lt hlt
  refine ⟨sliderStep_mem c hle value e v hv, ?_⟩
  cases e with
  | keyDown key =>
      simp only [SmoothSlider.sliderStep, SmoothSlider.handleKeyDown] at hv
      split_ifs at hv <;>
        simp only [Option.some.injEq, reduceCtorEq] at hv <;> subst hv
      · exact sliderSnap_grid c hle hgrid _
      · exact sliderSnap_grid c hle hgrid _
      · exact ⟨0, by push_cast; ring⟩
      · exact hgrid
      · exact sliderSnap_grid c hle hgrid _
      · exact sliderSnap_grid c hle hgrid _
  | wheel deltaY =>
      simp only [SmoothSlider.sliderStep, Option.some.injEq] at hv
      subst hv
      exact sliderSnap_grid c hle hgrid _
  | pointer clientX rectLeft rectWidth =>
      simp only [SmoothSlider.sliderStep, Option.some.injEq] at hv
      subst hv
      exact sliderSnap_grid c hle hgrid _

/-- Witness for C3 (amended) with min = 0, max = 10, step = 1 and a
wheel event with deltaY = -3 from value 5: the emitted value 6 is in
range and on the grid. -/
theorem sliderStep_range_and_grid_witness :
    ((0:ℚ) ≤ 6 ∧ (6:ℚ) ≤ 10) ∧ ∃ k : ℤ, (6:ℚ) - 0 = k * 1 := by
  have hv : SmoothSlider.sliderStep ⟨0, 10, 1⟩ 5 (.wheel (-3)) = some 6 := by
    norm_num [SmoothSlider.sliderStep, SmoothSlider.handleWheel,
      SmoothSlider.snapToStep, SmoothSlider.clamp, jsRound]
  exact sliderStep_range_and_grid ⟨0, 10, 1⟩ (by norm_num) (by norm_num)
    ⟨10, by norm_num⟩ 5 (.wheel (-3)) 6 hv

/-- C2 (counterexample): toggling from metric with stored height 213 cm
to imperial snaps to 84 inches and stores inchesToCm 84 = 213.36 cm,
which exceeds 213, so the stored height leaves [152, 213]. -/
theorem storedHeight_exceeds_213 :
    (handleUnitToggle ⟨false, 213⟩ true).heightCm = 213.36 ∧
    ¬ (handleUnitToggle ⟨false, 213⟩ true).heightCm ≤ 213 := by
  have h : (handleUnitToggle ⟨false, 213⟩ true).heightCm = 213.36 := by
    norm_num [handleUnitToggle, cmToInches, inchesToCm, snapToStep, jsRound]
  rw [h]
  norm_num

/-- C2 (amended): after every operation that sets the stored height —
the unit-toggle conversion (invoked with the unit actually changing)
and the height slider's onChange in either unit system — the stored
height in centimeters lies in [152, 213.36]. -/
theorem storedHeight_bounds :
    (∀ (s : HomeState) (b : Bool), b ≠ s.isImperial →
      152 ≤ (handleUnitToggle s b).heightCm ∧
        (handleUnitToggle s b).heightCm ≤ 213.36) ∧
    (∀ (s : HomeState) (value : ℚ) (e : SmoothSlider.SliderEvent) (v : ℚ),
      SmoothSlider.sliderStep (heightSliderConfig s.isImperial) value e = some v →
      152 ≤ (applyHeightOnChange s v).heightCm ∧
        (applyHeightOnChange s v).heightCm ≤ 213.36) := by
  have imp_bounds : ∀ x : ℚ, 60 ≤ x → x ≤ 84 →
      152 ≤ inchesToCm x ∧ inchesToCm x ≤ 213.36 := by
    intro x h1 h2
    unfold inchesToCm
    constructor <;> nlinarith
  constructor
  · rintro ⟨flag, hcm⟩ b hb
    cases flag <;> cases b
    · exact absurd rfl hb
    · have heq : handleUnitToggle ⟨false, hcm⟩ true =
          ⟨true, inchesToCm (max 60 (min 84 (snapToStep (cmToInches hcm) 60 0.5)))⟩ := by
        simp [handleUnitToggle]
      rw [heq]
      exact imp_bounds _ (le_max_left _ _) (max_le (by norm_num) (min_le_left _ _))
    · have heq : handleUnitToggle ⟨true, hcm⟩ false =
          ⟨false, max 152 (min 213 (snapToStep hcm 152 1))⟩ := by
        simp [handleUnitToggle]
      rw [heq]
      have h213 : max 152 (min 213 (snapToStep hcm 152 1)) ≤ 213 :=
        max_le (by norm_num) (min_le_left _ _)
      exact ⟨le_max_left _ _, by linarith⟩
    · exact absurd rfl hb
  · rintro ⟨flag, hcm⟩ value e v hv
    cases flag
    · have hmem := sliderStep_mem ⟨152, 213, 1⟩ (by norm_num) value e v hv
      have happ : applyHeightOnChange ⟨false, hcm⟩ v = ⟨false, v⟩ := by
        simp [applyHeightOnChange]
      rw [happ]
      have h1 : (152:ℚ) ≤ v := hmem.1
      have h2 : v ≤ 213 := hmem.2
      exact ⟨h1, by linarith⟩
    · have hmem := sliderStep_mem ⟨60, 84, 0.5⟩ (by norm_num) value e v hv
      have happ : applyHeightOnChange ⟨true, hcm⟩ v = ⟨true, inchesToCm v⟩ := by
        simp [applyHeightOnChange]
      rw [happ]
      exact imp_bounds v hmem.1 hmem.2

/-- Witness for C2 (amended): a real unit toggle from metric 178 cm,
and a metric End-key slider change, both leave the stored height inside
[152, 213.36]. -/
theorem storedHeight_bounds_witness :
    (152 ≤ (handleUnitToggle ⟨false, 178⟩ true).heightCm ∧
      (handleUnitToggle ⟨false, 178⟩ true).heightCm ≤ 213.36) ∧
    (152 ≤ (applyHeightOnChange ⟨false, 178⟩ 213).heightCm ∧
      (applyHeightOnChange ⟨false, 178⟩ 213).heightCm ≤ 213.36) :=
  ⟨storedHeight_bounds.1 ⟨false, 178⟩ true (by decide),
   storedHeight_bounds.2 ⟨false, 178⟩ 178 (.keyDown "End") 213 (by decide)⟩

/-- C9 (counterexample): for a wheel event with deltaY = 0 the code
proposes one step up (from 5 to 6 with min = 0, max = 10, step = 1),
while moving opposite the sign of the delta (`specWheelDirection`)
would leave the value at 5. -/
theorem handleWheel_zero_delta_moves_up :
    SmoothSlider.handleWheel ⟨0, 10, 1⟩ 5 0 = 6 ∧
    SmoothSlider.snapToStep ⟨0, 10, 1⟩ (5 + specWheelDirection 0 * 1) = 5 ∧
    (6:ℚ) ≠ 5 := by
  refine ⟨?_, ?_, by norm_num⟩
  · norm_num [SmoothSlider.handleWheel, SmoothSlider.snapToStep,
      SmoothSlider.clamp, jsRound]
  · norm_num [specWheelDirection, SmoothSlider.snapToStep,
      SmoothSlider.clamp, jsRound]

/-- C9 (amended): for every wheel event, a positive vertical delta
proposes the current value moved down one step and a zero or negative
delta proposes it moved up one step, in both cases snapped and clamped
by the widget's snapToStep, and that value is what is passed to
onChange. -/
theorem handleWheel_one_step (c : SliderConfig) (value deltaY : ℚ) :
    (0 < deltaY → SmoothSlider.handleWheel c value deltaY =
      SmoothSlider.snapToStep c (value - c.step)) ∧
    (deltaY ≤ 0 → SmoothSlider.handleWheel c value deltaY =
      SmoothSlider.snapToStep c (value + c.step)) ∧
    SmoothSlider.sliderStep c value (.wheel deltaY) =
      some (SmoothSlider.handleWheel c value deltaY) := by
  refine ⟨fun h => ?_, fun h => ?_, rfl⟩
  · unfold SmoothSlider.handleWheel
    rw [if_pos h]
    ring_nf
  · unfold SmoothSlider.handleWheel
    rw [if_neg (not_lt.mpr h)]
    ring_nf

/-- Witness for C9 (amended) at min = 0, max = 10, step = 1, value = 5:
deltaY = 3 proposes the snap of 4, deltaY = -3 proposes the snap of 6. -/
theorem handleWheel_one_step_witness :
    SmoothSlider.handleWheel ⟨0, 10, 1⟩ 5 3 =
      SmoothSlider.snapToStep ⟨0, 10, 1⟩ (5 - 1) ∧
    SmoothSlider.handleWheel ⟨0, 10, 1⟩ 5 (-3) =
      SmoothSlider.snapToStep ⟨0, 10, 1⟩ (5 + 1) :=
  ⟨(handleWheel_one_step ⟨0, 10, 1⟩ 5 3).1 (by norm_num),
   (handleWheel_one_step ⟨0, 10, 1⟩ 5 (-3)).2.1 (by norm_num)⟩
